import Mathlib

/-!
A shallow embedding of the music-theory engine of the PianoChordsQuiz
repository, `src/server/chords.ts`.  TypeScript values of type `number`
are modelled as `Int` (pitch classes, ids, inversions) or `Nat` (octaves,
indices); `undefined` values — which arise at runtime because the
`ChordPattern` objects in this file's catalog carry no `inversion`
property — are modelled as `Option.none`.  A JavaScript expression that
throws (`undefined.replace(...)` inside `scaleDegreeToSemitones`) is
modelled by `Except.error ()`.
-/

/-- One character of the `/[0-9]/g` character class used by the source. -/
def isDigitChar (c : Char) : Bool := c.isDigit

/-- `noteStr.replace(/[0-9]/g, "")`: delete every decimal digit. -/
def stripDigits (s : String) : String :=
  String.mk (s.data.filter (fun c => !(isDigitChar c)))

/-- The `noteToNumber` record of `src/server/chords.ts` (17 spellings). -/
def lookupNoteToNumber (s : String) : Option Int :=
  match s with
  | "C" => some 1
  | "C#" => some 2
  | "Db" => some 2
  | "D" => some 3
  | "D#" => some 4
  | "Eb" => some 4
  | "E" => some 5
  | "F" => some 6
  | "F#" => some 7
  | "Gb" => some 7
  | "G" => some 8
  | "G#" => some 9
  | "Ab" => some 9
  | "A" => some 10
  | "A#" => some 11
  | "Bb" => some 11
  | "B" => some 12
  | _ => none

/-- The `numberToNote` record of `src/server/chords.ts` (flat-preferred). -/
def numberToNoteTable (n : Int) : Option String :=
  match n with
  | 1 => some "C"
  | 2 => some "C#"
  | 3 => some "D"
  | 4 => some "Eb"
  | 5 => some "E"
  | 6 => some "F"
  | 7 => some "F#"
  | 8 => some "G"
  | 9 => some "Ab"
  | 10 => some "A"
  | 11 => some "Bb"
  | 12 => some "B"
  | _ => none

/-- `noteToNumeric`: strip the octave digits, look the name up, `|| 0`. -/
def noteToNumeric (noteStr : String) : Int :=
  (lookupNoteToNumber (stripDigits noteStr)).getD 0

/-- `parseInt` of a nonempty run of decimal digits. -/
def digitsToNat (l : List Char) : Nat :=
  l.foldl (fun a c => 10 * a + (c.toNat - 48)) 0

/-- `noteStr.match(/[0-9]+/)?.[0]`: the first maximal run of digits. -/
def firstDigitRun (l : List Char) : Option (List Char) :=
  match l with
  | [] => none
  | c :: rest =>
    if isDigitChar c then some (c :: rest.takeWhile (fun d => isDigitChar d))
    else firstDigitRun rest

/-- `parseInt(noteStr.match(/[0-9]+/)?.[0] || "4", 10)`. -/
def parseOct (s : String) : Nat :=
  match firstDigitRun s.data with
  | some ds => digitsToNat ds
  | none => 4

/-- `numericToNote`: `` `${numberToNote[noteNum]}${octave}` `` — an
out-of-range pitch number interpolates as the text "undefined". -/
def numericToNote (noteNum : Int) (octave : Nat) : String :=
  ((numberToNoteTable noteNum).getD "undefined") ++ toString octave

/-- `getRootName`: `numberToNote[rootNum] || ""`. -/
def getRootName (rootNum : Int) : String :=
  (numberToNoteTable rootNum).getD ""

/-- The `ChordPattern` interface of `src/server/chords.ts`.  The interface
declares `type`, `display`, `intervals` and `scaleDegreeMap` only; the rest
of the file nevertheless reads `pattern.inversion`, which at runtime
evaluates to `undefined` on every catalog entry — hence the field is
modelled as `Option Int`, `none` on every entry below. -/
structure ChordPattern where
  type : String
  display : String
  intervals : List Int
  inversion : Option Int
  scaleDegreeMap : List (Int × String)
deriving Repr, DecidableEq

/-- The `chordPatterns` array of `src/server/chords.ts` ("root position
chord patterns only"): fifteen entries, none of which carries an
`inversion` property. -/
def chordPatterns : List ChordPattern := [
  { type := "major", display := "", intervals := [0, 4, 7], inversion := none,
    scaleDegreeMap := [(0, "1"), (4, "3"), (7, "5")] },
  { type := "minor", display := "m", intervals := [0, 3, 7], inversion := none,
    scaleDegreeMap := [(0, "1"), (3, "b3"), (7, "5")] },
  { type := "augmented", display := "aug", intervals := [0, 4, 8], inversion := none,
    scaleDegreeMap := [(0, "1"), (4, "3"), (8, "#5")] },
  { type := "diminished", display := "dim", intervals := [0, 3, 6], inversion := none,
    scaleDegreeMap := [(0, "1"), (3, "b3"), (6, "b5")] },
  { type := "sus2", display := "sus2", intervals := [0, 2, 7], inversion := none,
    scaleDegreeMap := [(0, "1"), (2, "2"), (7, "5")] },
  { type := "sus4", display := "sus4", intervals := [0, 5, 7], inversion := none,
    scaleDegreeMap := [(0, "1"), (5, "4"), (7, "5")] },
  { type := "dominant7", display := "7", intervals := [0, 4, 7, 10], inversion := none,
    scaleDegreeMap := [(0, "1"), (4, "3"), (7, "5"), (10, "b7")] },
  { type := "major7", display := "maj7", intervals := [0, 4, 7, 11], inversion := none,
    scaleDegreeMap := [(0, "1"), (4, "3"), (7, "5"), (11, "7")] },
  { type := "minor7", display := "m7", intervals := [0, 3, 7, 10], inversion := none,
    scaleDegreeMap := [(0, "1"), (3, "b3"), (7, "5"), (10, "b7")] },
  { type := "diminished7", display := "dim7", intervals := [0, 3, 6, 9], inversion := none,
    scaleDegreeMap := [(0, "1"), (3, "b3"), (6, "b5"), (9, "bb7")] },
  { type := "halfdiminished7", display := "m7b5", intervals := [0, 3, 6, 10], inversion := none,
    scaleDegreeMap := [(0, "1"), (3, "b3"), (6, "b5"), (10, "b7")] },
  { type := "minorMajor7", display := "mMaj7", intervals := [0, 3, 7, 11], inversion := none,
    scaleDegreeMap := [(0, "1"), (3, "b3"), (7, "5"), (11, "7")] },
  { type := "diminishedMajor7", display := "dimMaj7", intervals := [0, 3, 6, 11], inversion := none,
    scaleDegreeMap := [(0, "1"), (3, "b3"), (6, "b5"), (11, "7")] },
  { type := "augmentedMinor7", display := "aug7", intervals := [0, 4, 8, 10], inversion := none,
    scaleDegreeMap := [(0, "1"), (4, "3"), (8, "#5"), (10, "b7")] },
  { type := "augmentedMajor7", display := "augMaj7", intervals := [0, 4, 8, 11], inversion := none,
    scaleDegreeMap := [(0, "1"), (4, "3"), (8, "#5"), (11, "7")] }
]

/-- `allRoots = Array.from({length: 12}, (_, i) => i + 1)`. -/
def allRoots : List Int := (List.range 12).map (fun i => (i : Int) + 1)

/-- `calculateChordNotes(rootNum, intervals)` of `src/server/chords.ts`.
JavaScript `%` is a truncated remainder, `Int.tmod`; only an exact 0 is
mapped to 12. -/
def calculateChordNotes (rootNum : Int) (intervals : List Int) : List Int :=
  intervals.map (fun interval =>
    let note := (rootNum + interval).tmod 12
    if note = 0 then 12 else note)

/-- `getInversionDisplay`; called with `undefined` the template literal of
the default branch renders "undefinedth inv". -/
def getInversionDisplay (inversion : Option Int) : String :=
  match inversion with
  | some 0 => ""
  | some 1 => "1st inv"
  | some 2 => "2nd inv"
  | some 3 => "3rd inv"
  | some 4 => "4th inv"
  | some n => toString n ++ "th inv"
  | none => "undefinedth inv"

/-- `generateChordName(rootNum, pattern)` of `src/server/chords.ts`. -/
def generateChordName (rootNum : Int) (pattern : ChordPattern) : String :=
  let rootName := getRootName rootNum
  if pattern.inversion == some 0 then
    rootName ++ pattern.display
  else
    rootName ++ pattern.display ++ "    " ++ getInversionDisplay pattern.inversion

/-- `noteNumbers[i] > noteNumbers[j]` with possibly-undefined operands:
any comparison against `undefined` is false in JavaScript. -/
def jsGT (a b : Option Int) : Bool :=
  match a, b with
  | some x, some y => decide (y < x)
  | _, _ => false

/-- `numericToNote` applied to a possibly-undefined index result. -/
def jsNumericToNote (n : Option Int) (octave : Nat) : String :=
  match n with
  | some v => numericToNote v octave
  | none => "undefined" ++ toString octave

/-- `generateNoteStrings(rootNum, pattern)` of `src/server/chords.ts`.
The branch taken is selected by strict equality on `pattern.inversion`;
when the pattern carries no such property every test fails and the
function returns the empty array.  Catalog patterns have 3 or 4
intervals, so the index arithmetic below matches the source loops. -/
def generateNoteStrings (rootNum : Int) (pattern : ChordPattern) : List String :=
  let baseOctave : Nat := 4
  let noteNumbers := calculateChordNotes rootNum pattern.intervals
  let is7thChord := noteNumbers.length > 3
  if pattern.inversion == some 0 then
    let first := jsNumericToNote (noteNumbers.get? 0) baseOctave
    let middles := (List.range' 1 (noteNumbers.length - 2)).map (fun i =>
      let prevNote := noteNumbers.get? (i - 1)
      let currNote := noteNumbers.get? i
      jsNumericToNote currNote (if jsGT currNote prevNote then baseOctave else baseOctave + 1))
    let lastIndex := noteNumbers.length - 1
    let top := jsNumericToNote (noteNumbers.get? lastIndex)
      (if jsGT (noteNumbers.get? lastIndex) (noteNumbers.get? (lastIndex - 1))
       then baseOctave else baseOctave + 1)
    first :: middles ++ [top]
  else if pattern.inversion == some 1 then
    let first := jsNumericToNote (noteNumbers.get? 0) baseOctave
    let middles := (List.range' 1 (noteNumbers.length - 2)).map (fun i =>
      let prevNote := noteNumbers.get? (i - 1)
      let currNote := noteNumbers.get? i
      jsNumericToNote currNote (if jsGT currNote prevNote then baseOctave else baseOctave + 1))
    let top := jsNumericToNote (noteNumbers.get? (noteNumbers.length - 1)) (baseOctave + 1)
    first :: middles ++ [top]
  else if pattern.inversion == some 2 then
    jsNumericToNote (noteNumbers.get? 0) baseOctave ::
      (List.range' 1 (noteNumbers.length - 1)).map (fun i =>
        jsNumericToNote (noteNumbers.get? i) (baseOctave + 1))
  else if pattern.inversion == some 3 && is7thChord then
    jsNumericToNote (noteNumbers.get? 0) baseOctave ::
      (List.range' 1 (noteNumbers.length - 1)).map (fun i =>
        jsNumericToNote (noteNumbers.get? i) (baseOctave + 1))
  else
    []

/-- The runtime shape of the objects `createChordDefinition` returns
(the declared `ChordData` of `@shared/schema` lacks `rootNote`,
`scaleDegrees` and `inversion`, but the server attaches them).
`scaleDegrees` is a record with numeric keys, enumerated in ascending
key order; a value may be `undefined` (`none`).  The whole record may be
absent (`none`) on targets built elsewhere, in which case the matcher
falls back to pitch-class comparison. -/
structure ChordData where
  id : Int
  name : String
  notes : List String
  noteNumbers : List Int
  difficulty : String
  rootNote : Int
  scaleDegrees : Option (List (Nat × Option String))
  inversion : Option Int
deriving Repr, DecidableEq

/-- `pattern.scaleDegreeMap[interval]`. -/
def lookupDegree (m : List (Int × String)) (k : Int) : Option String :=
  (m.find? (fun p => p.1 == k)).map (fun p => p.2)

/-- `baseScaleDegrees[pos]` for a possibly out-of-range numeric key. -/
def lookupBase (m : List (Nat × Option String)) (k : Int) : Option (Option String) :=
  (m.find? (fun p => ((p.1 : Int)) == k)).map (fun p => p.2)

/-- `createChordDefinition(rootNum, pattern, id, difficulty)` of
`src/server/chords.ts`.  With `pattern.inversion` undefined the rotation
index `(i + pattern.inversion) % chordSize` is `NaN`, so every rotated
scale-degree lookup misses and the stored values are all `undefined`. -/
def createChordDefinition (rootNum : Int) (pattern : ChordPattern) (id : Int)
    (difficulty : String) : ChordData :=
  let name := generateChordName rootNum pattern
  let notes := generateNoteStrings rootNum pattern
  let noteNumbers := notes.map noteToNumeric
  let baseNotes := calculateChordNotes rootNum pattern.intervals
  let baseScaleDegrees : List (Nat × Option String) :=
    (List.range baseNotes.length).map (fun index =>
      (index, (pattern.intervals.get? index).bind (fun interval =>
        lookupDegree pattern.scaleDegreeMap interval)))
  let chordSize := baseNotes.length
  let scaleDegrees : List (Nat × Option String) :=
    if pattern.inversion == some 0 then
      baseScaleDegrees
    else
      (List.range chordSize).map (fun i =>
        (i, match pattern.inversion with
            | some k => (lookupBase baseScaleDegrees (((i : Int) + k).tmod (chordSize : Int))).join
            | none => none))
  { id := id, name := name, notes := notes, noteNumbers := noteNumbers,
    difficulty := difficulty, rootNote := rootNum,
    scaleDegrees := some scaleDegrees, inversion := pattern.inversion }

/-- `chordPatterns.find(p => p.type === t && p.inversion === inv)`. -/
def findPattern (t : String) (inv : Int) : Option ChordPattern :=
  chordPatterns.find? (fun p => p.type == t && p.inversion == some inv)

/-- `if (pattern) chords.push(createChordDefinition(root, pattern, id++, difficulty))`. -/
def pushChord (difficulty : String) (root : Int) (pat : Option ChordPattern)
    (st : List ChordData × Int) : List ChordData × Int :=
  match pat with
  | some pattern => (st.1 ++ [createChordDefinition root pattern st.2 difficulty], st.2 + 1)
  | none => st

/-- The six triad types admitted by the level-7 filter. -/
def level7Types : List String :=
  ["major", "minor", "diminished", "augmented", "sus2", "sus4"]

/-- `getChordsForDifficulty(difficulty)` of `src/server/chords.ts`: the
switch over the nine level tags, each case looking patterns up with
`p.inversion === k` and pushing definitions with a running id starting
at 1.  A tag outside the switch returns the empty accumulator. -/
def getChordsForDifficulty (difficulty : String) : List ChordData :=
  let st0 : List ChordData × Int := ([], 1)
  if difficulty == "level1" then
    let st1 := [(1 : Int), 6, 8].foldl
      (fun st r => pushChord difficulty r (findPattern "major" 0) st) st0
    let st2 := [(10 : Int), 3, 5].foldl
      (fun st r => pushChord difficulty r (findPattern "minor" 0) st) st1
    st2.1
  else if difficulty == "level2" then
    (allRoots.foldl (fun st r =>
      pushChord difficulty r (findPattern "minor" 0)
        (pushChord difficulty r (findPattern "major" 0) st)) st0).1
  else if difficulty == "level3" then
    ([(1 : Int), 3, 5, 6, 8, 10, 12].foldl (fun st r =>
      pushChord difficulty r (findPattern "sus4" 0)
        (pushChord difficulty r (findPattern "sus2" 0)
          (pushChord difficulty r (findPattern "diminished" 0)
            (pushChord difficulty r (findPattern "augmented" 0) st)))) st0).1
  else if difficulty == "level4" then
    let blackRoots := allRoots.filter (fun r => !([(1 : Int), 3, 5, 6, 8, 10].contains r))
    let st1 := blackRoots.foldl (fun st r =>
      pushChord difficulty r (findPattern "diminished" 0)
        (pushChord difficulty r (findPattern "augmented" 0) st)) st0
    ([(1 : Int), 3].foldl (fun st r =>
      pushChord difficulty r (findPattern "sus4" 0)
        (pushChord difficulty r (findPattern "sus2" 0) st)) st1).1
  else if difficulty == "level5" then
    ([(1 : Int), 8, 6, 3, 10, 5].foldl (fun st r =>
      let isMajor := [(1 : Int), 8, 6, 3].contains r
      pushChord difficulty r (findPattern (if isMajor then "major" else "minor") 1) st) st0).1
  else if difficulty == "level6" then
    ([(1 : Int), 8, 6, 3, 10, 5].foldl (fun st r =>
      let isMajor := [(1 : Int), 8, 6, 3].contains r
      pushChord difficulty r (findPattern (if isMajor then "major" else "minor") 2) st) st0).1
  else if difficulty == "level7" then
    (allRoots.foldl (fun st r =>
      (chordPatterns.filter (fun p => level7Types.contains p.type)).foldl
        (fun st p => pushChord difficulty r (some p) st) st) st0).1
  else if difficulty == "level8" then
    ([(1 : Int), 6, 8, 10, 3, 5].foldl (fun st r =>
      (List.range 4).foldl (fun st inv =>
        pushChord difficulty r (findPattern "minorMajor7" (inv : Int))
          (pushChord difficulty r (findPattern "minor7" (inv : Int))
            (pushChord difficulty r (findPattern "major7" (inv : Int))
              (pushChord difficulty r (findPattern "dominant7" (inv : Int)) st)))) st) st0).1
  else if difficulty == "level9" then
    ([(1 : Int), 6, 8, 10, 3, 5].foldl (fun st r =>
      (List.range 4).foldl (fun st inv =>
        pushChord difficulty r (findPattern "augmentedMajor7" (inv : Int))
          (pushChord difficulty r (findPattern "augmentedMinor7" (inv : Int))
            (pushChord difficulty r (findPattern "diminishedMajor7" (inv : Int))
              (pushChord difficulty r (findPattern "halfdiminished7" (inv : Int))
                (pushChord difficulty r (findPattern "diminished7" (inv : Int)) st))))) st) st0).1
  else
    st0.1

/-- Loop body of `while (note > 12) note -= 12`, with an explicit fuel
bound on the iteration count (structural, so it computes). -/
def subUntilLe12Go : Nat → Int → Int
  | 0, n => n
  | fuel + 1, n => if 12 < n then subUntilLe12Go fuel (n - 12) else n

/-- `while (note > 12) note -= 12`; `n.toNat` iterations always suffice. -/
def subUntilLe12 (n : Int) : Int := subUntilLe12Go n.toNat n

/-- Loop body of `while (note < 1) note += 12`. -/
def addUntilGe1Go : Nat → Int → Int
  | 0, n => n
  | fuel + 1, n => if n < 1 then addUntilGe1Go fuel (n + 12) else n

/-- `while (note < 1) note += 12`; `(1 - n).toNat` iterations suffice. -/
def addUntilGe1 (n : Int) : Int := addUntilGe1Go (1 - n).toNat n

/-- Loop body of `while (semitones < 0) semitones += 12`. -/
def addUntilNonnegGo : Nat → Int → Int
  | 0, n => n
  | fuel + 1, n => if n < 0 then addUntilNonnegGo fuel (n + 12) else n

/-- `while (semitones < 0) semitones += 12`. -/
def addUntilNonneg (n : Int) : Int := addUntilNonnegGo (-n).toNat n

/-- Loop body of `while (semitones >= 12) semitones -= 12`. -/
def subUntilLt12Go : Nat → Int → Int
  | 0, n => n
  | fuel + 1, n => if 12 ≤ n then subUntilLt12Go fuel (n - 12) else n

/-- `while (semitones >= 12) semitones -= 12`. -/
def subUntilLt12 (n : Int) : Int := subUntilLt12Go n.toNat n

/-- `scaleDegreeToSemitones(scaleDegree)` of `src/server/chords.ts`:
strip accidentals, count them, look the bare degree up in the major-scale
table (unknown degrees default to 0), apply accidentals, normalize the
result into [0, 11]. -/
def scaleDegreeToSemitones (scaleDegree : String) : Int :=
  let degree := String.mk (scaleDegree.data.filter (fun c => !(c == 'b' || c == '#')))
  let flatCount : Int := (scaleDegree.data.filter (fun c => c == 'b')).length
  let sharpCount : Int := (scaleDegree.data.filter (fun c => c == '#')).length
  let base : Int :=
    if degree == "1" then 0
    else if degree == "2" then 2
    else if degree == "3" then 4
    else if degree == "4" then 5
    else if degree == "5" then 7
    else if degree == "6" then 9
    else if degree == "7" then 11
    else 0
  subUntilLt12 (addUntilNonneg (base - flatCount + sharpCount))

/-- `semitonesToNote(semitones, rootNote)` of `src/server/chords.ts`:
add and normalize into [1, 12] by the two while loops. -/
def semitonesToNote (semitones rootNote : Int) : Int :=
  addUntilGe1 (subUntilLe12 (rootNote + semitones))

/-- `.sort((a, b) => a - b)`: ascending numeric sort. -/
def sortInts (l : List Int) : List Int :=
  List.insertionSort (fun a b => a ≤ b) l

/-- The no-`targetChord` fallback of `checkChordMatch`: map both note
lists through `noteToNumeric`, sort ascending, reject on a length
mismatch, then compare element by element (which, at equal lengths, is
list equality). -/
def fallbackMatch (userNotes targetNotes : List String) : Bool :=
  if (sortInts (userNotes.map noteToNumeric)).length ≠
      (sortInts (targetNotes.map noteToNumeric)).length then false
  else decide (sortInts (userNotes.map noteToNumeric) = sortInts (targetNotes.map noteToNumeric))

/-- The comparator `(a, b) => a.octave - b.octave || a.note - b.note`
used on `{note, octave}` pairs: octave first, then pitch class. -/
def noteOctLe (a b : Int × Nat) : Prop :=
  a.2 < b.2 ∨ (a.2 = b.2 ∧ a.1 ≤ b.1)

instance noteOctLe.decRel : DecidableRel noteOctLe := fun a b =>
  inferInstanceAs (Decidable (a.2 < b.2 ∨ (a.2 = b.2 ∧ a.1 ≤ b.1)))

/-- Sorting user notes by octave, then by pitch class. -/
def sortNoteOcts (l : List (Int × Nat)) : List (Int × Nat) :=
  List.insertionSort noteOctLe l

/-- `Object.values(...).map(scaleDegreeToSemitones)` raises a `TypeError`
as soon as a stored value is `undefined`; otherwise it returns all the
strings. -/
def liftOptions : List (Option String) → Option (List String)
  | [] => some []
  | none :: _ => none
  | some s :: rest => (liftOptions rest).map (fun l => s :: l)

/-- The user's played pitch classes, bass to soprano: parse each note
string into a (pitch class, octave) pair, sort by octave then pitch
class, keep the pitch classes.  (The source parses the stripped name;
stripping is idempotent, so this equals `noteToNumeric` of the string.) -/
def userPitchesOf (userNotes : List String) : List Int :=
  (sortNoteOcts (userNotes.map (fun s => (noteToNumeric s, parseOct s)))).map Prod.fst

/-- Step 2 of the scale-degree matcher: the bass-note check.  For a
positive `inversion` the expected bass degree is whatever the
scale-degree record stores at key `inversion` (an absent entry, an
`undefined` degree, or an empty string skips the check); otherwise the
root must be in the bass whenever some position stores degree "1".
Comparing `userPitchClasses[0]` of an empty list against a number is a
comparison with `undefined`, hence a mismatch. -/
def bassCheck (userPitches : List Int) (tc : ChordData)
    (chordScaleDegrees : List (Nat × Option String)) : Bool :=
  let invPositive : Bool :=
    match tc.inversion with
    | some k => decide (0 < k)
    | none => false
  if invPositive then
    match chordScaleDegrees.find? (fun p => some ((p.1 : Int)) == tc.inversion) with
    | some (_, some d) =>
      if d == "" then true
      else
        match userPitches.head? with
        | some b => if b ≠ semitonesToNote (scaleDegreeToSemitones d) tc.rootNote then false else true
        | none => false
    | some (_, none) => true
    | none => true
  else
    match chordScaleDegrees.find? (fun p => p.2 == some "1") with
    | some _ =>
      match userPitches.head? with
      | some b => if b ≠ tc.rootNote then false else true
      | none => false
    | none => true

/-- The scale-degree path of `checkChordMatch`: recompute the expected
pitch classes from the stored scale degrees (a `TypeError`,
`Except.error ()`, if a stored degree is `undefined`), require every
expected pitch class among the user's pitches, require equal note
counts, then run the bass check. -/
def advancedMatch (userNotes : List String) (tc : ChordData)
    (chordScaleDegrees : List (Nat × Option String)) : Except Unit Bool :=
  let userPitches := userPitchesOf userNotes
  match liftOptions (chordScaleDegrees.map Prod.snd) with
  | none => Except.error ()
  | some degreeStrs =>
    let expectedNotes := degreeStrs.map
      (fun d => semitonesToNote (scaleDegreeToSemitones d) tc.rootNote)
    if expectedNotes.all (fun e => decide (e ∈ userPitches)) then
      if userPitches.length = expectedNotes.length then
        Except.ok (bassCheck userPitches tc chordScaleDegrees)
      else Except.ok false
    else Except.ok false

/-- `checkChordMatch(userNotes, targetNotes, targetChord?)` of
`src/server/chords.ts`.  Without a target chord — or with one whose
`scaleDegrees` record is absent — it falls back to pure pitch-class
comparison of the two note-string lists; otherwise it runs the
scale-degree matcher (which never reads `targetNotes`). -/
def checkChordMatchE (userNotes targetNotes : List String)
    (targetChord : Option ChordData) : Except Unit Bool :=
  match targetChord with
  | none => Except.ok (fallbackMatch userNotes targetNotes)
  | some tc =>
    match tc.scaleDegrees with
    | none => Except.ok (fallbackMatch userNotes targetNotes)
    | some chordScaleDegrees => advancedMatch userNotes tc chordScaleDegrees

/-- The target of the spec's "dominant 7th, 2nd inversion" scenario:
G dominant7, 2nd inversion, with the rotated per-position scale degrees
that `createChordDefinition` would store for it. -/
def gDom7Inv2 : ChordData :=
  { id := 1, name := "G7 2nd inv", notes := ["D4", "F4", "G4", "B4"],
    noteNumbers := [3, 6, 8, 12], difficulty := "level8", rootNote := 8,
    scaleDegrees := some [(0, some "5"), (1, some "b7"), (2, some "1"), (3, some "3")],
    inversion := some 2 }

/-- A target whose scale-degree record stores the root degree twice:
legal at runtime, and enough to defeat "a 0 pitch class always fails". -/
def dupRootTarget : ChordData :=
  { id := 2, name := "Cdup", notes := ["C4", "C5"], noteNumbers := [1, 1],
    difficulty := "level1", rootNote := 1,
    scaleDegrees := some [(0, some "1"), (1, some "1")], inversion := some 0 }

theorem subUntilLe12Go_le (fuel : Nat) (n : Int) (h : n ≤ 12 + 12 * fuel) :
    subUntilLe12Go fuel n ≤ 12 := by
  induction fuel generalizing n with
  | zero => simpa [subUntilLe12Go] using h
  | succ f ih =>
    simp only [subUntilLe12Go]
    by_cases hc : 12 < n
    · simp only [if_pos hc]
      exact ih (n - 12) (by omega)
    · simp only [if_neg hc]
      omega

theorem subUntilLe12_le (n : Int) : subUntilLe12 n ≤ 12 :=
  subUntilLe12Go_le n.toNat n (by omega)

theorem addUntilGe1Go_bounds (fuel : Nat) (n : Int) (hn : n ≤ 12)
    (hf : 1 - 12 * fuel ≤ n) :
    1 ≤ addUntilGe1Go fuel n ∧ addUntilGe1Go fuel n ≤ 12 := by
  induction fuel generalizing n with
  | zero =>
    simp only [addUntilGe1Go]
    omega
  | succ f ih =>
    simp only [addUntilGe1Go]
    by_cases hc : n < 1
    · simp only [if_pos hc]
      exact ih (n + 12) (by omega) (by omega)
    · simp only [if_neg hc]
      omega

theorem addUntilGe1_bounds (n : Int) (h : n ≤ 12) :
    1 ≤ addUntilGe1 n ∧ addUntilGe1 n ≤ 12 :=
  addUntilGe1Go_bounds (1 - n).toNat n h (by omega)

theorem semitonesToNote_bounds (s r : Int) :
    1 ≤ semitonesToNote s r ∧ semitonesToNote s r ≤ 12 :=
  addUntilGe1_bounds _ (subUntilLe12_le _)

theorem liftOptions_map_some (l : List String) : liftOptions (l.map some) = some l := by
  induction l with
  | nil => rfl
  | cons a t ih => simp [liftOptions, ih]

theorem liftOptions_of_isSome (l : List (Option String)) (h : ∀ x ∈ l, x.isSome) :
    ∃ m, liftOptions l = some m ∧ m.length = l.length := by
  induction l with
  | nil => exact ⟨[], rfl, rfl⟩
  | cons a t ih =>
    cases a with
    | none =>
      have := h none (List.mem_cons_self _ _)
      simp at this
    | some s =>
      obtain ⟨m, hm, hlen⟩ := ih (fun x hx => h x (List.mem_cons_of_mem _ hx))
      refine ⟨s :: m, ?_, ?_⟩
      · simp [liftOptions, hm]
      · simp [hlen]

theorem sortInts_perm (l : List Int) : (sortInts l).Perm l :=
  List.perm_insertionSort _ l

theorem sortNoteOcts_length (l : List (Int × Nat)) : (sortNoteOcts l).length = l.length :=
  List.length_insertionSort _ l

theorem sortInts_length (l : List Int) : (sortInts l).length = l.length :=
  List.length_insertionSort _ l

theorem sortInts_congr {l₁ l₂ : List Int} (h : (l₁ : Multiset Int) = (l₂ : Multiset Int)) :
    sortInts l₁ = sortInts l₂ := by
  have hp : l₁.Perm l₂ := Multiset.coe_eq_coe.mp h
  exact List.eq_of_perm_of_sorted
    ((List.perm_insertionSort _ l₁).trans (hp.trans (List.perm_insertionSort _ l₂).symm))
    (List.sorted_insertionSort _ l₁) (List.sorted_insertionSort _ l₂)

theorem userPitchesOf_length (u : List String) : (userPitchesOf u).length = u.length := by
  unfold userPitchesOf
  rw [List.length_map, sortNoteOcts_length, List.length_map]

theorem userPitchesOf_perm (u : List String) :
    (userPitchesOf u).Perm (u.map noteToNumeric) := by
  unfold userPitchesOf sortNoteOcts
  have h1 := (List.perm_insertionSort noteOctLe
    (u.map (fun s => (noteToNumeric s, parseOct s)))).map Prod.fst
  rwa [List.map_map] at h1

theorem checkChordMatchE_with_sd (u t : List String) (tc : ChordData)
    (sd : List (Nat × Option String)) (h : tc.scaleDegrees = some sd) :
    checkChordMatchE u t (some tc) = advancedMatch u tc sd := by
  show (match tc.scaleDegrees with
        | none => Except.ok (fallbackMatch u t)
        | some chordScaleDegrees => advancedMatch u tc chordScaleDegrees) = advancedMatch u tc sd
  rw [h]

theorem checkChordMatchE_no_sd (u t : List String) (tc : ChordData)
    (h : tc.scaleDegrees = none) :
    checkChordMatchE u t (some tc) = Except.ok (fallbackMatch u t) := by
  show (match tc.scaleDegrees with
        | none => Except.ok (fallbackMatch u t)
        | some chordScaleDegrees => advancedMatch u tc chordScaleDegrees) =
      Except.ok (fallbackMatch u t)
  rw [h]

/-- C1 (counterexample): called without a target chord, the matcher
accepts the root-position C-major voicing against the first-inversion
target — the claim says this call returns false, but it returns true. -/
theorem fallback_inversion_cex :
    checkChordMatchE ["C4", "E4", "G4"] ["E4", "G4", "C5"] none = Except.ok true := rfl

/-- C1 (amended): without a target chord `checkChordMatch` compares
pitch-class content only, so the root-position C-major voicing matches
both the root-position target and the first-inversion C-major target;
the no-`targetChord` fallback does not enforce bass-note correctness. -/
theorem fallback_pitch_content_only :
    checkChordMatchE ["C4", "E4", "G4"] ["C4", "E4", "G4"] none = Except.ok true ∧
    checkChordMatchE ["C4", "E4", "G4"] ["E4", "G4", "C5"] none = Except.ok true :=
  ⟨rfl, rfl⟩

/-- C2: `getChordsForDifficulty("level1")` returns the empty list — the
level-1 case looks every pattern up with `p.inversion === 0`, but no
catalog entry carries an `inversion` property, so all six declared
(root, pattern) combinations are silently skipped. -/
theorem level1_chord_list_empty : getChordsForDifficulty "level1" = [] := rfl

/-- C3: for the G-dominant7 2nd-inversion target with rotated scale
degrees, a voicing with D in the bass is rejected while one with G in
the bass is accepted — the bass check reads the rotated record at key
`inversion` (degree "1", the root) instead of the bass position's
degree "5". -/
theorem dom7_second_inversion_bass_check :
    checkChordMatchE ["D4", "F4", "G4", "B4"] gDom7Inv2.notes (some gDom7Inv2) =
      Except.ok false ∧
    checkChordMatchE ["G3", "B3", "D4", "F4"] gDom7Inv2.notes (some gDom7Inv2) =
      Except.ok true :=
  ⟨rfl, rfl⟩

/-- C4: matcher reflexivity fails — the first chord instance of tier
level7 (the only nonempty tier) has empty `notes` and all-`undefined`
scale degrees, and `checkChordMatch(c.notes, c.notes, c)` on it throws
(`Except.error ()`) instead of returning true. -/
theorem matcher_reflexivity_fails_level7 :
    ((getChordsForDifficulty "level7").head?).map
      (fun c => checkChordMatchE c.notes c.notes (some c)) =
      some (Except.error ()) := rfl

/-- C5: for every root 1–12 and every pattern in the catalog,
`generateNoteStrings` returns the empty list (no branch of the
octave-assignment switch matches an undefined `inversion`), so there is
no bass note in octave 4 at all. -/
theorem generateNoteStrings_empty_on_catalog :
    allRoots.all (fun r => chordPatterns.all (fun p => generateNoteStrings r p == [])) = true :=
  rfl

/-- C6 (counterexample): `calculateChordNotes(1, [-2])` returns `[-1]` —
root 1 and interval −2 are inside the claimed ranges, yet the result is
negative because JavaScript `%` does not wrap negative sums up. -/
theorem calculateChordNotes_negative_cex :
    ¬ (∀ x ∈ calculateChordNotes 1 [-2], 1 ≤ x ∧ x ≤ 12) := by decide

/-- C7: the generation/parsing round-trip fails on the catalog — for the
first catalog pattern (major) at root 1, `generateNoteStrings` returns
the empty list, so index 0 is `undefined` (and `noteToNumeric` of it
would throw), while `calculateChordNotes` still yields pitch class 1. -/
theorem roundTrip_fails_on_catalog :
    (chordPatterns.head?).map (fun p => (generateNoteStrings 1 p).get? 0) = some none ∧
    (chordPatterns.head?).map (fun p => (calculateChordNotes 1 p.intervals).get? 0) =
      some (some 1) :=
  ⟨rfl, rfl⟩

/-- C6 (amended): for every root in [1,12] and interval list drawn from
[−12,24], every returned value lies in [1,12] provided each sum
`root + interval` is nonnegative; without that proviso the JavaScript
remainder leaves the (negative) sum unchanged. -/
theorem calculateChordNotes_range_of_nonneg (root : Int) (l : List Int)
    (_hroot : 1 ≤ root ∧ root ≤ 12)
    (hl : ∀ i ∈ l, -12 ≤ i ∧ i ≤ 24 ∧ 0 ≤ root + i) :
    ∀ x ∈ calculateChordNotes root l, 1 ≤ x ∧ x ≤ 12 := by
  intro x hx
  unfold calculateChordNotes at hx
  obtain ⟨i, hi, hxi⟩ := List.mem_map.mp hx
  obtain ⟨-, -, hnn⟩ := hl i hi
  have h0 : (0 : Int) ≤ (root + i).tmod 12 := Int.tmod_nonneg 12 hnn
  have h1 : (root + i).tmod 12 < 12 := Int.tmod_lt_of_pos _ (by norm_num)
  rw [← hxi]
  show 1 ≤ (if (root + i).tmod 12 = 0 then 12 else (root + i).tmod 12) ∧
    (if (root + i).tmod 12 = 0 then 12 else (root + i).tmod 12) ≤ 12
  by_cases hz : (root + i).tmod 12 = 0
  · simp only [if_pos hz]
    omega
  · simp only [if_neg hz]
    omega

/-- C6 (witness): the amended range property applied to root 1 (C) with
the major-triad intervals. -/
theorem calculateChordNotes_range_witness :
    ((1 : Int) ≤ 1 ∧ (1 : Int) ≤ 12) ∧
    (∀ x ∈ calculateChordNotes 1 [0, 4, 7], 1 ≤ x ∧ x ≤ 12) :=
  ⟨by decide, calculateChordNotes_range_of_nonneg 1 [0, 4, 7] (by decide) (by decide)⟩

theorem advancedMatch_eq_of_lift (u : List String) (tc : ChordData)
    (sd : List (Nat × Option String)) (m : List String)
    (hm : liftOptions (sd.map Prod.snd) = some m) :
    advancedMatch u tc sd =
      (if (m.map (fun d => semitonesToNote (scaleDegreeToSemitones d) tc.rootNote)).all
          (fun e => decide (e ∈ userPitchesOf u)) then
        if (userPitchesOf u).length =
            (m.map (fun d => semitonesToNote (scaleDegreeToSemitones d) tc.rootNote)).length then
          Except.ok (bassCheck (userPitchesOf u) tc sd)
        else Except.ok false
      else Except.ok false) := by
  unfold advancedMatch
  rw [hm]

/-- C8: a user note list of a different length than the target list is
rejected on every path — the fallback compares sorted lengths first, and
the scale-degree path (for any well-typed target whose scale-degree
record has exactly one entry per target note) fails either the
presence check or the count check before any bass comparison. -/
theorem count_mismatch_rejected (u t : List String) (tc : Option ChordData)
    (hlen : u.length ≠ t.length)
    (hwf : ∀ c, tc = some c → ∀ sd, c.scaleDegrees = some sd →
      sd.length = t.length ∧ ∀ p ∈ sd, (p.2).isSome) :
    checkChordMatchE u t tc = Except.ok false := by
  have hfb : fallbackMatch u t = false := by
    unfold fallbackMatch
    rw [if_pos]
    rw [sortInts_length, sortInts_length, List.length_map, List.length_map]
    exact hlen
  cases tc with
  | none => exact congrArg Except.ok hfb
  | some c =>
    cases hsd : c.scaleDegrees with
    | none => rw [checkChordMatchE_no_sd u t c hsd, hfb]
    | some sd =>
      obtain ⟨hsdlen, hvals⟩ := hwf c rfl sd hsd
      obtain ⟨m, hm, hmlen⟩ := liftOptions_of_isSome (sd.map Prod.snd) (by
        intro x hx
        obtain ⟨p, hp, hpx⟩ := List.mem_map.mp hx
        exact hpx ▸ hvals p hp)
      rw [checkChordMatchE_with_sd u t c sd hsd, advancedMatch_eq_of_lift u c sd m hm]
      have hne : (userPitchesOf u).length ≠
          (m.map (fun d => semitonesToNote (scaleDegreeToSemitones d) c.rootNote)).length := by
        rw [userPitchesOf_length, List.length_map]
        rw [List.length_map] at hmlen
        omega
      by_cases hall : ((m.map (fun d => semitonesToNote (scaleDegreeToSemitones d) c.rootNote)).all
          (fun e => decide (e ∈ userPitchesOf u))) = true
      · rw [if_pos hall, if_neg hne]
      · rw [if_neg hall]

/-- C8 (witness): the spec's own instance — a dyad against a triad
target, no target chord — evaluates to a non-match. -/
theorem count_mismatch_rejected_witness :
    (["C4", "E4"] : List String).length ≠ (["C4", "E4", "G4"] : List String).length ∧
    checkChordMatchE ["C4", "E4"] ["C4", "E4", "G4"] none = Except.ok false :=
  ⟨by decide, count_mismatch_rejected ["C4", "E4"] ["C4", "E4", "G4"] none (by decide)
    (fun c h => by cases h)⟩

/-- C9 (counterexample): an unparseable user note does not force a
non-match — "H4" parses to the sentinel 0, yet the fallback accepts it
against a target that also parses to 0, and the scale-degree path
accepts `["C4", "X9"]` against a target whose record stores the degree
"1" twice; the claim says both calls must return false. -/
theorem invalid_note_match_cex :
    noteToNumeric "H4" = 0 ∧
    checkChordMatchE ["H4"] ["H4"] none = Except.ok true ∧
    noteToNumeric "X9" = 0 ∧
    checkChordMatchE ["C4", "X9"] [] (some dupRootTarget) = Except.ok true :=
  ⟨rfl, rfl, rfl, rfl⟩

/-- C9 (amended): `noteToNumeric` returns the sentinel 0 for any note
string whose stripped pitch name is not a known spelling, and a 0 pitch
class among the user notes yields `false` (never an exception) whenever
the target is itself valid: in the fallback, when no target note parses
to 0; in the scale-degree path, when the stored degrees are strings
whose expected pitch classes are pairwise distinct. -/
theorem invalid_note_handling :
    (∀ s : String, lookupNoteToNumber (stripDigits s) = none → noteToNumeric s = 0) ∧
    (∀ u t : List String, (0 : Int) ∈ u.map noteToNumeric →
      (∀ x ∈ t.map noteToNumeric, x ≠ (0 : Int)) →
      checkChordMatchE u t none = Except.ok false) ∧
    (∀ (u t : List String) (tc : ChordData) (sd : List (Nat × Option String))
        (strs : List String),
      tc.scaleDegrees = some sd →
      sd.map Prod.snd = strs.map some →
      (strs.map (fun d => semitonesToNote (scaleDegreeToSemitones d) tc.rootNote)).Nodup →
      (0 : Int) ∈ u.map noteToNumeric →
      checkChordMatchE u t (some tc) = Except.ok false) := by
  refine ⟨?_, ?_, ?_⟩
  · intro s h
    unfold noteToNumeric
    rw [h]
    rfl
  · intro u t hu ht
    have hfb : fallbackMatch u t = false := by
      unfold fallbackMatch
      by_cases hl : (sortInts (u.map noteToNumeric)).length ≠
          (sortInts (t.map noteToNumeric)).length
      · rw [if_pos hl]
      · rw [if_neg hl]
        apply decide_eq_false
        intro heq
        have h0 : (0 : Int) ∈ sortInts (u.map noteToNumeric) :=
          ((sortInts_perm _).mem_iff).mpr hu
        rw [heq] at h0
        exact ht 0 (((sortInts_perm _).mem_iff).mp h0) rfl
    exact congrArg Except.ok hfb
  · intro u t tc sd strs hsd hvals hnodup hu
    rw [checkChordMatchE_with_sd u t tc sd hsd]
    have hm : liftOptions (sd.map Prod.snd) = some strs := by
      rw [hvals]
      exact liftOptions_map_some strs
    rw [advancedMatch_eq_of_lift u tc sd strs hm]
    by_cases hall : ((strs.map (fun d => semitonesToNote (scaleDegreeToSemitones d) tc.rootNote)).all
        (fun e => decide (e ∈ userPitchesOf u))) = true
    · rw [if_pos hall]
      have hsub : (strs.map (fun d => semitonesToNote (scaleDegreeToSemitones d) tc.rootNote)) ⊆
          userPitchesOf u := by
        intro e he
        exact of_decide_eq_true (List.all_eq_true.mp hall e he)
      have h0u : (0 : Int) ∈ userPitchesOf u := ((userPitchesOf_perm u).mem_iff).mpr hu
      have h0E : (0 : Int) ∉
          (strs.map (fun d => semitonesToNote (scaleDegreeToSemitones d) tc.rootNote)) := by
        intro h0
        obtain ⟨d, hd, hdx⟩ := List.mem_map.mp h0
        have := (semitonesToNote_bounds (scaleDegreeToSemitones d) tc.rootNote).1
        omega
      have hcons : ((0 : Int) ::
          strs.map (fun d => semitonesToNote (scaleDegreeToSemitones d) tc.rootNote)).Nodup :=
        List.nodup_cons.mpr ⟨h0E, hnodup⟩
      have hsub2 : ((0 : Int) ::
          strs.map (fun d => semitonesToNote (scaleDegreeToSemitones d) tc.rootNote)) ⊆
          userPitchesOf u := by
        intro x hx
        rcases List.mem_cons.mp hx with h | h
        · exact h ▸ h0u
        · exact hsub h
      have hle := (List.subperm_of_subset hcons hsub2).length_le
      rw [if_neg (by
        simp only [List.length_cons] at hle
        omega)]
    · rw [if_neg hall]

/-- C9 (witness): the amended statement applied to "Z7" (unknown name),
to the fallback call `["H4"]` vs `["C4"]`, and to the scale-degree call
`["H4"]` against the G-dominant7 target. -/
theorem invalid_note_handling_witness :
    noteToNumeric "Z7" = 0 ∧
    checkChordMatchE ["H4"] ["C4"] none = Except.ok false ∧
    checkChordMatchE ["H4"] [] (some gDom7Inv2) = Except.ok false :=
  ⟨invalid_note_handling.1 "Z7" rfl,
   invalid_note_handling.2.1 ["H4"] ["C4"] (by decide) (by decide),
   invalid_note_handling.2.2 ["H4"] [] gDom7Inv2
     [(0, some "5"), (1, some "b7"), (2, some "1"), (3, some "3")]
     ["5", "b7", "1", "3"] rfl rfl (by decide) (by decide)⟩

/-- C10: the no-`targetChord` matcher is a function of the two pitch-class
multisets alone — equal multisets give equal verdicts (hence permuting a
list never changes the result) — and `noteToNumeric` ignores appended
digit runs (hence rewriting octave digits never changes the result). -/
theorem fallback_noninterference :
    (∀ u t u' t' : List String,
      ((u.map noteToNumeric : List Int) : Multiset Int) =
        ((u'.map noteToNumeric : List Int) : Multiset Int) →
      ((t.map noteToNumeric : List Int) : Multiset Int) =
        ((t'.map noteToNumeric : List Int) : Multiset Int) →
      checkChordMatchE u t none = checkChordMatchE u' t' none) ∧
    (∀ s d : String, (∀ c ∈ d.data, isDigitChar c = true) →
      noteToNumeric (s ++ d) = noteToNumeric s) := by
  constructor
  · intro u t u' t' hu ht
    show Except.ok (fallbackMatch u t) = Except.ok (fallbackMatch u' t')
    have : fallbackMatch u t = fallbackMatch u' t' := by
      unfold fallbackMatch
      rw [sortInts_congr hu, sortInts_congr ht]
    rw [this]
  · intro s d hd
    have hstrip : stripDigits (s ++ d) = stripDigits s := by
      unfold stripDigits
      rw [String.data_append, List.filter_append]
      have hnil : d.data.filter (fun c => !(isDigitChar c)) = [] := by
        rw [List.filter_eq_nil_iff]
        intro c hc
        simp [hd c hc]
      rw [hnil, List.append_nil]
    show (lookupNoteToNumber (stripDigits (s ++ d))).getD 0 =
      (lookupNoteToNumber (stripDigits s)).getD 0
    rw [hstrip]

/-- C10 (witness): a permuted, octave-renumbered C-major voicing gets the
same verdict as the original, and digits appended to a pitch name do not
change its pitch class. -/
theorem fallback_noninterference_witness :
    checkChordMatchE ["C4", "E4", "G4"] ["C4", "E4", "G4"] none =
      checkChordMatchE ["G7", "C4", "E5"] ["E12", "G4", "C4"] none ∧
    noteToNumeric ("C" ++ "444") = noteToNumeric "C" :=
  ⟨fallback_noninterference.1 ["C4", "E4", "G4"] ["C4", "E4", "G4"]
      ["G7", "C4", "E5"] ["E12", "G4", "C4"] (by decide) (by decide),
   fallback_noninterference.2 "C" "444" (by decide)⟩
